import Mathlib

/-!
Verification of the CityPulse real-time pipeline frontend: the
`WebSocketClient` reconnector (frontend/src/services/api.js, bundled in
setup.sh) and the `Dashboard` live-events consumer
(frontend/src/components/dashboard/Dashboard.jsx).

The JavaScript classes are shallowly embedded: the mutable fields of
`WebSocketClient` become a Lean structure, each method or browser event
handler becomes a pure function returning the updated state together with
the list of observable effects it performs (listener emissions, timer
scheduling, socket transmissions, console logging).  `JSON.parse` of an
inbound frame is represented by its result, an `Option Json` (`none` when
the payload is not valid JSON and the parse throws); `JSON.stringify` is
represented by recording the serialized `Json` value in the transmit
effect.
-/

namespace CityPulse

/-- Values of the JSON data model, as produced by `JSON.parse`. -/
inductive Json where
  | null : Json
  | bool (b : Bool) : Json
  | num (q : ℚ) : Json
  | str (s : String) : Json
  | arr (elems : List Json) : Json
  | obj (fields : List (String × Json)) : Json

/-- JavaScript property access `j.k`: a lookup in an object, `undefined`
(here `none`) on any non-object base occurring in the claims. -/
def Json.get : Json → String → Option Json
  | .obj fields, k => fields.lookup k
  | _, _ => none

/-- JavaScript truthiness of a value, as tested by `if (data.data)`. -/
def Json.truthy : Json → Bool
  | .null => false
  | .bool b => b
  | .num q => decide (q ≠ 0)
  | .str s => decide (s ≠ "")
  | .arr _ => true
  | .obj _ => true

/-- Truthiness of a property-access result: `undefined` is falsy. -/
def jsTruthy : Option Json → Bool
  | none => false
  | some v => v.truthy

/-- Whether a parsed message has a `data` field at all (present, whatever
its value). -/
def hasDataField (j : Json) : Bool := (j.get "data").isSome

/-- ReadyState constants of the browser `WebSocket` object. -/
inductive ReadyState where
  | CONNECTING : ReadyState
  | OPEN : ReadyState
  | CLOSING : ReadyState
  | CLOSED : ReadyState
deriving DecidableEq, Repr

/-- Base URL prepended to the endpoint when opening a socket
(`WS_BASE_URL` in api.js). -/
def WS_BASE_URL : String := "ws://localhost:8000"

/-- Observable effects of the `WebSocketClient` methods and handlers:
listener emissions, socket opening, timer scheduling, transmissions and
console logging. -/
inductive Effect where
  | openSocket (url : String) : Effect
  | emitOpen : Effect
  | emitMessage (data : Json) : Effect
  | emitError : Effect
  | emitClose : Effect
  | scheduleReconnect (delayMs : ℕ) : Effect
  | logMaxReconnect : Effect
  | logParseError : Effect
  | logWarnNotSent : Effect
  | transmit (data : Json) : Effect

/-- Mutable fields of the `WebSocketClient` class.  The `ws` field is
`null` (`none`) or a socket, modelled by its readyState. -/
structure WebSocketClient where
  endpoint : String
  ws : Option ReadyState
  reconnectAttempts : ℕ
  maxReconnectAttempts : ℕ
  reconnectDelay : ℕ
deriving DecidableEq, Repr

namespace WebSocketClient

/-- Embeds `new WebSocketClient(endpoint)`: ws = null, reconnectAttempts
= 0, maxReconnectAttempts = 5, reconnectDelay = 1000. -/
def create (endpoint : String) : WebSocketClient :=
  { endpoint := endpoint
    ws := none
    reconnectAttempts := 0
    maxReconnectAttempts := 5
    reconnectDelay := 1000 }

/-- Embeds `connect()`: builds the url from the fixed base and the
stored endpoint and opens a fresh socket there (handlers installed). -/
def connect (c : WebSocketClient) : WebSocketClient × List Effect :=
  ({ c with ws := some ReadyState.CONNECTING },
   [Effect.openSocket (WS_BASE_URL ++ c.endpoint)])

/-- Embeds the `onopen` handler firing: the browser moves the socket to
OPEN, the handler resets `reconnectAttempts` to 0 and emits `open`. -/
def onopen (c : WebSocketClient) : WebSocketClient × List Effect :=
  ({ c with ws := some ReadyState.OPEN, reconnectAttempts := 0 },
   [Effect.emitOpen])

/-- Embeds the `onmessage` handler: `parsed` is the result of
`JSON.parse(event.data)` (`none` when the parse throws).  On success the
parsed value is emitted to the `message` listeners; on failure the error
is caught and only logged.  The client state is untouched either way. -/
def onmessage (c : WebSocketClient) (parsed : Option Json) :
    WebSocketClient × List Effect :=
  match parsed with
  | some data => (c, [Effect.emitMessage data])
  | none => (c, [Effect.logParseError])

/-- Embeds the `onerror` handler: log and emit `error`. -/
def onerror (c : WebSocketClient) : WebSocketClient × List Effect :=
  (c, [Effect.emitError])

/-- Embeds `attemptReconnect()`: below the cap, increment the counter and
schedule `connect` after `reconnectDelay * reconnectAttempts` ms; at the
cap, log and stop. -/
def attemptReconnect (c : WebSocketClient) : WebSocketClient × List Effect :=
  if c.reconnectAttempts < c.maxReconnectAttempts then
    let c1 := { c with reconnectAttempts := c.reconnectAttempts + 1 }
    (c1, [Effect.scheduleReconnect (c1.reconnectDelay * c1.reconnectAttempts)])
  else
    (c, [Effect.logMaxReconnect])

/-- Embeds the `onclose` handler firing: the browser moves the socket to
CLOSED, the handler emits `close` and calls `attemptReconnect`. -/
def onclose (c : WebSocketClient) : WebSocketClient × List Effect :=
  let c0 := { c with ws := some ReadyState.CLOSED }
  let r := attemptReconnect c0
  (r.1, Effect.emitClose :: r.2)

/-- Embeds `send(data)`: transmit `JSON.stringify(data)` when the socket
exists and its readyState is OPEN, otherwise log a warning and drop the
message. -/
def send (c : WebSocketClient) (data : Json) : WebSocketClient × List Effect :=
  match c.ws with
  | some ReadyState.OPEN => (c, [Effect.transmit data])
  | _ => (c, [Effect.logWarnNotSent])

/-- Embeds `disconnect()`: close the socket if there is one and null the
field. -/
def disconnect (c : WebSocketClient) : WebSocketClient × List Effect :=
  match c.ws with
  | some _ => ({ c with ws := none }, [])
  | none => (c, [])

end WebSocketClient

/-- Embeds `createEventsWebSocket`: a client for the `/ws/events`
endpoint. -/
def createEventsWebSocket : WebSocketClient := WebSocketClient.create "/ws/events"

/-- Embeds `createSensorWebSocket(sensorId)`. -/
def createSensorWebSocket (sensorId : String) : WebSocketClient :=
  WebSocketClient.create ("/ws/sensors/" ++ sensorId)

/-- External stimuli a client instance can receive: method calls by the
owner and events fired by the browser on the current socket. -/
inductive Action where
  | connect : Action
  | openEvt : Action
  | messageEvt (parsed : Option Json) : Action
  | errorEvt : Action
  | closeEvt : Action
  | send (data : Json) : Action
  | disconnect : Action

/-- One stimulus step of a `WebSocketClient`. -/
def WebSocketClient.step (c : WebSocketClient) : Action → WebSocketClient × List Effect
  | .connect => c.connect
  | .openEvt => c.onopen
  | .messageEvt parsed => c.onmessage parsed
  | .errorEvt => c.onerror
  | .closeEvt => c.onclose
  | .send data => c.send data
  | .disconnect => c.disconnect

/-- Runs a list of stimuli, accumulating all effects in order. -/
def WebSocketClient.run (c : WebSocketClient) :
    List Action → WebSocketClient × List Effect
  | [] => (c, [])
  | a :: rest =>
    let r1 := c.step a
    let r2 := r1.1.run rest
    (r2.1, r1.2 ++ r2.2)

/-- Scenario in which every reconnect fails: starting from a close event
on the current socket, each scheduled `connect` opens a socket that
immediately fails and closes again, until `attemptReconnect` gives up.
The fuel argument of the worker is chosen large enough that the loop
always terminates by reaching the cap. -/
def failLoop : ℕ → WebSocketClient → WebSocketClient × List Effect
  | 0, c => (c, [])
  | fuel + 1, c =>
    let r1 := c.onclose
    if c.reconnectAttempts < c.maxReconnectAttempts then
      let r2 := r1.1.connect
      let r3 := failLoop fuel r2.1
      (r3.1, r1.2 ++ r2.2 ++ r3.2)
    else
      (r1.1, r1.2)

/-- The all-reconnects-fail scenario run to completion. -/
def failAllReconnects (c : WebSocketClient) : WebSocketClient × List Effect :=
  failLoop (c.maxReconnectAttempts - c.reconnectAttempts + 1) c

/-- Number of reconnect attempts actually issued in an effect trace: each
attempt is one scheduled reconnect timer. -/
def countSchedules (effects : List Effect) : ℕ :=
  effects.countP fun e =>
    match e with
    | Effect.scheduleReconnect _ => true
    | _ => false

/-- Delays, in order, of the reconnect attempts issued in a trace. -/
def scheduledDelays (effects : List Effect) : List ℕ :=
  effects.filterMap fun e =>
    match e with
    | Effect.scheduleReconnect d => some d
    | _ => none

/-- Socket urls opened, in order, in a trace. -/
def openedUrls (effects : List Effect) : List String :=
  effects.filterMap fun e =>
    match e with
    | Effect.openSocket u => some u
    | _ => none

/-! ### The Dashboard consumer (Dashboard.jsx)

The Dashboard registers `open`, `message` and `close` listeners on the
client created by `createEventsWebSocket`.  Its user-visible state is the
pair of React states `wsConnected : Bool` (initially false) and
`liveEvents : List Json` (initially empty). -/

/-- Embeds the body of the `message` listener applied to one parsed
message: `if (data.data) setLiveEvents(prev => [data.data, ...prev].slice(0, 100))`. -/
def dashboardOnMessage (data : Json) (prev : List Json) : List Json :=
  match data.get "data" with
  | some d => if d.truthy then (d :: prev).take 100 else prev
  | none => prev

/-- React state of the Dashboard component that the user sees. -/
structure DashboardState where
  wsConnected : Bool
  liveEvents : List Json

/-- Initial Dashboard state: `useState(false)` and `useState([])`. -/
def dashboardInit : DashboardState := { wsConnected := false, liveEvents := [] }

/-- Client events observable by the registered listeners of the Dashboard. -/
inductive ClientEvent where
  | openEvt : ClientEvent
  | messageEvt (data : Json) : ClientEvent
  | closeEvt : ClientEvent
  | errorEvt : ClientEvent

/-- Embeds the three registered listeners: `open` sets the connected flag,
`close` clears it, `message` updates the live list; no listener is
registered for `error`, so it leaves the state unchanged. -/
def dashboardHandle (s : DashboardState) : ClientEvent → DashboardState
  | .openEvt => { s with wsConnected := true }
  | .closeEvt => { s with wsConnected := false }
  | .messageEvt data => { s with liveEvents := dashboardOnMessage data s.liveEvents }
  | .errorEvt => s

/-- Runs the Dashboard listeners over a sequence of client events. -/
def dashboardRun (s : DashboardState) (evts : List ClientEvent) : DashboardState :=
  evts.foldl dashboardHandle s

/-- Connection flag determined by the last `open`/`close` event of a
sequence (the binary connected/disconnected abstraction). -/
def connFlagAfter (b : Bool) : List ClientEvent → Bool
  | [] => b
  | ClientEvent.openEvt :: rest => connFlagAfter true rest
  | ClientEvent.closeEvt :: rest => connFlagAfter false rest
  | ClientEvent.messageEvt _ :: rest => connFlagAfter b rest
  | ClientEvent.errorEvt :: rest => connFlagAfter b rest

/-! ### Outbound message envelope and analytics

The backend (Connection Gateway and Analytics Engine) is not among the
provided sources; the definitions below are modelled from the spec. -/

/-- Modelled from the spec: the outbound message
envelope, `{ "data": <Event | SensorReading> }`, one envelope per
published record, no batching.  The serializer of the gateway itself is not in
the provided sources. -/
def envelope (record : Json) : Json := Json.obj [("data", record)]

/-- Modelled from the spec: arithmetic mean of the values of a
RollingWindow (the Analytics Engine implementation is not in the provided
sources). -/
def mean (w : List ℚ) : ℚ := w.sum / (w.length : ℚ)

/-- Modelled from the spec: population variance of the window, the square
of the standard deviation sigma used for anomaly scoring. -/
def popVariance (w : List ℚ) : ℚ :=
  (w.map fun v => (v - mean w) ^ 2).sum / (w.length : ℚ)

/-- Modelled from the spec: square of the anomaly z-score
`z = (value − μ) / σ`, with σ = 0 giving z = 0.  Working with z² keeps
the computation in ℚ; since thresholds are nonnegative, `|z| ≥ t` holds
iff `z² ≥ t²`. -/
def zscoreSq (w : List ℚ) (v : ℚ) : ℚ :=
  if popVariance w = 0 then 0 else (v - mean w) ^ 2 / popVariance w

/-- Modelled from the spec: the default anomaly threshold 3.0. -/
def anomalyThreshold : ℚ := 3

/-- Modelled from the spec: a reading is flagged as an anomaly when the
magnitude of its z-score is at least the threshold, i.e. z² ≥ t²; a
zero-variance window flags nothing. -/
def isAnomaly (w : List ℚ) (v : ℚ) (threshold : ℚ) : Bool :=
  decide (threshold ^ 2 ≤ zscoreSq w v)

/-- The anomaly-detection window of the testable property in the spec. -/
def specWindow : List ℚ := [10, 10, 10, 10, 100]

/-- The events client after `connect()` succeeded and `onopen` fired: the
state from which an unexpected close starts the reconnect loop. -/
def connectedEventsClient : WebSocketClient :=
  ((createEventsWebSocket.connect).1.onopen).1

/-- A concrete published Event record, as it appears in the `data` field
of an outbound envelope. -/
def sampleEvent : Json :=
  Json.obj [("id", Json.num 1), ("event_type", Json.str "traffic"),
            ("severity", Json.str "critical"), ("title", Json.str "Major accident")]

/-! ### Helper lemmas -/

/-- Every stimulus step leaves the `endpoint` field unchanged. -/
lemma step_endpoint (c : WebSocketClient) (a : Action) :
    ((c.step a).1).endpoint = c.endpoint := by
  cases a with
  | connect => rfl
  | openEvt => rfl
  | messageEvt parsed => cases parsed <;> rfl
  | errorEvt => rfl
  | closeEvt =>
      simp only [WebSocketClient.step, WebSocketClient.onclose,
        WebSocketClient.attemptReconnect]
      split <;> rfl
  | send d =>
      simp only [WebSocketClient.step, WebSocketClient.send]
      split <;> rfl
  | disconnect =>
      simp only [WebSocketClient.step, WebSocketClient.disconnect]
      split <;> rfl

/-- Any socket a single step opens is at the fixed base url plus the
stored endpoint. -/
lemma step_openedUrls (c : WebSocketClient) (a : Action) :
    ∀ u ∈ openedUrls (c.step a).2, u = WS_BASE_URL ++ c.endpoint := by
  cases a with
  | connect =>
      intro u hu
      simpa [WebSocketClient.step, WebSocketClient.connect, openedUrls] using hu
  | openEvt =>
      intro u hu
      simp [WebSocketClient.step, WebSocketClient.onopen, openedUrls] at hu
  | messageEvt parsed =>
      intro u hu
      cases parsed <;>
        simp [WebSocketClient.step, WebSocketClient.onmessage, openedUrls] at hu
  | errorEvt =>
      intro u hu
      simp [WebSocketClient.step, WebSocketClient.onerror, openedUrls] at hu
  | closeEvt =>
      intro u hu
      simp only [WebSocketClient.step, WebSocketClient.onclose,
        WebSocketClient.attemptReconnect] at hu
      split at hu <;> simp [openedUrls] at hu
  | send d =>
      intro u hu
      simp only [WebSocketClient.step, WebSocketClient.send] at hu
      split at hu <;> simp [openedUrls] at hu
  | disconnect =>
      intro u hu
      simp only [WebSocketClient.step, WebSocketClient.disconnect] at hu
      split at hu <;> simp [openedUrls] at hu

/-- Whole runs leave the `endpoint` field unchanged. -/
lemma run_endpoint (acts : List Action) :
    ∀ c : WebSocketClient, ((c.run acts).1).endpoint = c.endpoint := by
  induction acts with
  | nil => intro c; rfl
  | cons a rest ih =>
      intro c
      simp only [WebSocketClient.run]
      rw [ih]
      exact step_endpoint c a

/-- Opened-url extraction distributes over trace concatenation. -/
lemma openedUrls_append (l1 l2 : List Effect) :
    openedUrls (l1 ++ l2) = openedUrls l1 ++ openedUrls l2 := by
  simp [openedUrls, List.filterMap_append]

/-- Every socket opened anywhere in a run is at the fixed base url plus
the stored endpoint. -/
lemma run_openedUrls (acts : List Action) :
    ∀ c : WebSocketClient, ∀ u ∈ openedUrls (c.run acts).2,
      u = WS_BASE_URL ++ c.endpoint := by
  induction acts with
  | nil => intro c u hu; simp [WebSocketClient.run, openedUrls] at hu
  | cons a rest ih =>
      intro c u hu
      simp only [WebSocketClient.run, openedUrls_append, List.mem_append] at hu
      rcases hu with hu | hu
      · exact step_openedUrls c a u hu
      · have h2 := ih (c.step a).1 u hu
        rw [step_endpoint c a] at h2
        exact h2

/-- Schedule counting distributes over trace concatenation. -/
lemma countSchedules_append (l1 l2 : List Effect) :
    countSchedules (l1 ++ l2) = countSchedules l1 + countSchedules l2 := by
  simp [countSchedules, List.countP_append]

/-- With enough fuel, the all-reconnects-fail loop schedules exactly one
reconnect per remaining attempt below the cap. -/
lemma failLoop_schedule_count (fuel : ℕ) :
    ∀ c : WebSocketClient,
      c.maxReconnectAttempts - c.reconnectAttempts < fuel →
      countSchedules (failLoop fuel c).2 =
        c.maxReconnectAttempts - c.reconnectAttempts := by
  induction fuel with
  | zero => intro c h; omega
  | succ fuel ih =>
      intro c h
      by_cases hc : c.reconnectAttempts < c.maxReconnectAttempts
      · simp only [failLoop, WebSocketClient.onclose, WebSocketClient.attemptReconnect,
          WebSocketClient.connect, hc, if_pos]
        rw [countSchedules_append, countSchedules_append]
        have hrec := ih
          { c with ws := some ReadyState.CONNECTING,
                   reconnectAttempts := c.reconnectAttempts + 1 }
          (by simp; omega)
        simp only [countSchedules, List.countP_cons, List.countP_nil] at hrec ⊢
        simp [hrec]
        omega
      · simp only [failLoop, WebSocketClient.onclose, WebSocketClient.attemptReconnect,
          hc, if_neg, if_false]
        simp [countSchedules, List.countP_cons]
        omega

/-- One message-listener invocation never grows the live list beyond 100
entries. -/
lemma dashboardOnMessage_length_le (data : Json) (prev : List Json)
    (h : prev.length ≤ 100) : (dashboardOnMessage data prev).length ≤ 100 := by
  unfold dashboardOnMessage
  split
  · split
    · simp [List.length_take]
    · exact h
  · exact h

/-- The 100-entry bound on the live list is preserved by any event run. -/
lemma dashboardRun_length_le (evts : List ClientEvent) :
    ∀ s : DashboardState, s.liveEvents.length ≤ 100 →
      ((dashboardRun s evts).liveEvents).length ≤ 100 := by
  induction evts with
  | nil => intro s h; exact h
  | cons e rest ih =>
      intro s h
      cases e with
      | openEvt => exact ih _ h
      | closeEvt => exact ih _ h
      | errorEvt => exact ih _ h
      | messageEvt data => exact ih _ (dashboardOnMessage_length_le data s.liveEvents h)

/-- The connected flag after a run is determined by the last open or
close event of the run. -/
lemma dashboardRun_wsConnected (evts : List ClientEvent) :
    ∀ s : DashboardState,
      (dashboardRun s evts).wsConnected = connFlagAfter s.wsConnected evts := by
  induction evts with
  | nil => intro s; rfl
  | cons e rest ih =>
      intro s
      cases e with
      | openEvt => simpa [dashboardRun, dashboardHandle, connFlagAfter] using ih _
      | closeEvt => simpa [dashboardRun, dashboardHandle, connFlagAfter] using ih _
      | errorEvt => simpa [dashboardRun, dashboardHandle, connFlagAfter] using ih _
      | messageEvt data => simpa [dashboardRun, dashboardHandle, connFlagAfter] using ih _

/-! ### Claim theorems -/

/-- C1: when the connection closes unexpectedly and every reconnect fails,
the client issues exactly 5 reconnect attempts, equal to its configured
`maxReconnectAttempts` cap, then stops retrying for good; the last event
surfaced to the caller is the terminal `close` (disconnected), followed
only by the give-up log. -/
theorem reconnector_stops_after_cap :
    countSchedules (failAllReconnects connectedEventsClient).2 =
      connectedEventsClient.maxReconnectAttempts ∧
    countSchedules (failAllReconnects connectedEventsClient).2 = 5 ∧
    (failAllReconnects connectedEventsClient).1.ws = some ReadyState.CLOSED ∧
    (failAllReconnects connectedEventsClient).1.reconnectAttempts =
      (failAllReconnects connectedEventsClient).1.maxReconnectAttempts ∧
    (failAllReconnects connectedEventsClient).2.getLast? = some Effect.logMaxReconnect ∧
    (failAllReconnects connectedEventsClient).2.dropLast.getLast? = some Effect.emitClose :=
  ⟨rfl, rfl, rfl, rfl, rfl, rfl⟩

/-- C2: for every attempt number n with 1 ≤ n ≤ 5, the delay scheduled
before the n-th reconnect attempt of a client with base delay 1000 ms is
exactly 1000 · n ms (linear in the attempt count). -/
theorem reconnect_delay_linear_in_attempt (c : WebSocketClient) (n : ℕ)
    (hdelay : c.reconnectDelay = 1000) (hmax : c.maxReconnectAttempts = 5)
    (hatt : c.reconnectAttempts = n - 1) (h1 : 1 ≤ n) (h5 : n ≤ 5) :
    c.attemptReconnect =
      ({ c with reconnectAttempts := n }, [Effect.scheduleReconnect (1000 * n)]) := by
  simp only [WebSocketClient.attemptReconnect, hdelay, hmax, hatt]
  rw [if_pos (by omega)]
  have hn : n - 1 + 1 = n := by omega
  simp [hn]

/-- Witness for C2 at the third attempt: delay 3000 ms. -/
theorem reconnect_delay_linear_in_attempt_witness :
    1 ≤ 3 ∧ 3 ≤ 5 ∧
    WebSocketClient.attemptReconnect
        ⟨"/ws/events", some ReadyState.CLOSED, 2, 5, 1000⟩ =
      (⟨"/ws/events", some ReadyState.CLOSED, 3, 5, 1000⟩,
       [Effect.scheduleReconnect 3000]) :=
  ⟨by norm_num, by norm_num,
   reconnect_delay_linear_in_attempt
     ⟨"/ws/events", some ReadyState.CLOSED, 2, 5, 1000⟩ 3
     rfl rfl rfl (by norm_num) (by norm_num)⟩

/-- C3 counterexample: on the window [10,10,10,10,100] the reading 100 is
NOT flagged under the default threshold 3.0, because its squared z-score
is 4, i.e. its z-score has magnitude exactly 2 < 3. -/
theorem spec_window_zscore_below_threshold :
    isAnomaly specWindow 100 anomalyThreshold = false ∧
    zscoreSq specWindow 100 = 4 := by
  constructor
  · norm_num [isAnomaly, anomalyThreshold, zscoreSq, popVariance, mean, specWindow]
  · norm_num [zscoreSq, popVariance, mean, specWindow]

/-- C3 amended: on the window [10,10,10,10,100] the z-score of 100 has
magnitude exactly 2 and the z-score of each 10 has magnitude 1/2; with
the default threshold 3.0 no reading is flagged, and with threshold 2 the
reading 100 is flagged while the readings 10 are not. -/
theorem spec_window_zscore_amended :
    zscoreSq specWindow 100 = 4 ∧
    zscoreSq specWindow 10 = 1 / 4 ∧
    isAnomaly specWindow 100 anomalyThreshold = false ∧
    isAnomaly specWindow 10 anomalyThreshold = false ∧
    isAnomaly specWindow 100 2 = true ∧
    isAnomaly specWindow 10 2 = false := by
  refine ⟨?_, ?_, ?_, ?_, ?_, ?_⟩ <;>
    norm_num [isAnomaly, anomalyThreshold, zscoreSq, popVariance, mean, specWindow]

/-- C4: a frame whose payload is not valid JSON (parse result `none`) is
rejected individually: no `message` listener is invoked for it, the
client state, in particular the socket and its readyState, is unchanged,
and only a parse error is logged; the connection is never closed by the
handler. -/
theorem malformed_frame_rejected_connection_open (c : WebSocketClient) :
    c.onmessage none = (c, [Effect.logParseError]) ∧
    (c.onmessage none).1.ws = c.ws ∧
    ∀ d : Json, Effect.emitMessage d ∉ (c.onmessage none).2 := by
  refine ⟨rfl, rfl, ?_⟩
  intro d hd
  simp [WebSocketClient.onmessage] at hd

/-- Witness for C4 on the concrete connected events client. -/
theorem malformed_frame_rejected_connection_open_witness :
    (connectedEventsClient.onmessage none) =
      (connectedEventsClient, [Effect.logParseError]) :=
  (malformed_frame_rejected_connection_open connectedEventsClient).1

/-- C5 counterexample: the parsed message (data: false) contains a `data`
field, yet the Dashboard adds nothing to its live events list, because
the code tests JavaScript truthiness of `data.data`, not field presence;
so "added iff the message contains a data field" fails. -/
theorem dashboard_falsy_data_field_not_added :
    hasDataField (Json.obj [("data", Json.bool false)]) = true ∧
    dashboardOnMessage (Json.obj [("data", Json.bool false)]) [] = [] :=
  ⟨rfl, rfl⟩

/-- C5 amended: every outbound envelope is a single object carrying
exactly one published record under its `data` field, and the Dashboard
adds a record to its live events list if and only if the parsed message
contains a `data` field whose value is truthy in the JavaScript sense
(records delivered in envelopes are objects, hence truthy). -/
theorem envelope_single_record_dashboard_truthy (record j : Json) (prev : List Json) :
    (envelope record).get "data" = some record ∧
    (jsTruthy (j.get "data") = false → dashboardOnMessage j prev = prev) ∧
    (∀ d : Json, j.get "data" = some d → d.truthy = true →
      dashboardOnMessage j prev = (d :: prev).take 100) := by
  refine ⟨rfl, ?_, ?_⟩
  · intro hfalse
    unfold dashboardOnMessage
    cases hget : j.get "data" with
    | none => rfl
    | some d =>
        rw [hget] at hfalse
        simp only [jsTruthy] at hfalse
        simp [hfalse]
  · intro d hget htruthy
    unfold dashboardOnMessage
    rw [hget]
    simp [htruthy]

/-- Witness for C5 amended: an enveloped event record is truthy and gets
prepended. -/
theorem envelope_single_record_dashboard_truthy_witness :
    jsTruthy ((envelope sampleEvent).get "data") = true ∧
    dashboardOnMessage (envelope sampleEvent) [] = [sampleEvent] :=
  ⟨rfl,
   (envelope_single_record_dashboard_truthy sampleEvent (envelope sampleEvent) []).2.2
     sampleEvent rfl rfl⟩

/-- C6: the endpoint of a client is fixed at construction: after any
sequence of stimuli (connects, reconnect-driving closes, sends, ...) the
stored endpoint is still the constructed one, and every socket ever
opened, including every reconnect, is at the same url built from that
endpoint. -/
theorem endpoint_fixed_at_construction (e : String) (acts : List Action) :
    (((WebSocketClient.create e).run acts).1).endpoint = e ∧
    ∀ u ∈ openedUrls ((WebSocketClient.create e).run acts).2,
      u = WS_BASE_URL ++ e := by
  constructor
  · rw [run_endpoint]; rfl
  · intro u hu
    exact run_openedUrls acts (WebSocketClient.create e) u hu

/-- Witness for C6 on a concrete connect of the events client. -/
theorem endpoint_fixed_at_construction_witness :
    (((WebSocketClient.create "/ws/events").run [Action.connect]).1).endpoint =
      "/ws/events" ∧
    "ws://localhost:8000/ws/events" = WS_BASE_URL ++ "/ws/events" :=
  ⟨(endpoint_fixed_at_construction "/ws/events" [Action.connect]).1,
   (endpoint_fixed_at_construction "/ws/events" [Action.connect]).2
     "ws://localhost:8000/ws/events" (by decide)⟩

/-- C7: the Dashboard surfaces exactly a binary connected/disconnected
state: its flag becomes true on every `open` event, false on every
`close` event, and after any event sequence it equals the binary
abstraction determined by the last open/close event; the surfaced
`DashboardState` consists of this flag and the live events list only, so
no dropped-message count reaches the user. -/
theorem binary_connected_state_surfaced (s0 s : DashboardState)
    (evts : List ClientEvent) :
    (dashboardRun s0 evts).wsConnected = connFlagAfter s0.wsConnected evts ∧
    (dashboardHandle s ClientEvent.openEvt).wsConnected = true ∧
    (dashboardHandle s ClientEvent.closeEvt).wsConnected = false :=
  ⟨dashboardRun_wsConnected evts s0, rfl, rfl⟩

/-- C8: the live events buffer holds at most 100 events, newest first:
an arriving enveloped (truthy) event is prepended at the head, the
result never exceeds 100 entries, a full buffer of 100 drops exactly its
oldest (last) entry, and every state reachable from the initial
Dashboard state keeps the 100 bound. -/
theorem live_events_capped_newest_first (x : Json) (prev : List Json)
    (hx : x.truthy = true) :
    dashboardOnMessage (envelope x) prev = (x :: prev).take 100 ∧
    (dashboardOnMessage (envelope x) prev).head? = some x ∧
    (dashboardOnMessage (envelope x) prev).length ≤ 100 ∧
    (prev.length = 100 → dashboardOnMessage (envelope x) prev = x :: prev.dropLast) ∧
    (∀ evts : List ClientEvent,
      ((dashboardRun dashboardInit evts).liveEvents).length ≤ 100) := by
  have hpush : dashboardOnMessage (envelope x) prev = (x :: prev).take 100 := by
    unfold dashboardOnMessage
    simp [envelope, Json.get, hx]
  refine ⟨hpush, ?_, ?_, ?_, ?_⟩
  · rw [hpush, show (100 : ℕ) = 99 + 1 from rfl, List.take_succ_cons]
    rfl
  · rw [hpush]; simp [List.length_take]
  · intro h100
    rw [hpush, show (100 : ℕ) = 99 + 1 from rfl, List.take_succ_cons,
      List.dropLast_eq_take, h100]
  · intro evts
    exact dashboardRun_length_le evts dashboardInit (by simp [dashboardInit])

/-- Witness for C8: pushing onto a full buffer of 100 entries drops the
oldest entry. -/
theorem live_events_capped_newest_first_witness :
    (sampleEvent.truthy = true) ∧
    (List.replicate 100 Json.null).length = 100 ∧
    dashboardOnMessage (envelope sampleEvent) (List.replicate 100 Json.null) =
      sampleEvent :: (List.replicate 100 Json.null).dropLast :=
  ⟨rfl, by simp,
   (live_events_capped_newest_first sampleEvent (List.replicate 100 Json.null)
     rfl).2.2.2.1 (by simp)⟩

/-- C9: `send` is a total function; it transmits the serialized payload
exactly when the socket exists with readyState OPEN and otherwise only
logs a warning, and in every case the client state is returned
unchanged. -/
theorem send_total_transmit_iff_socket_open (c : WebSocketClient) (d : Json) :
    c.send d =
      (c, if c.ws = some ReadyState.OPEN then [Effect.transmit d]
          else [Effect.logWarnNotSent]) := by
  unfold WebSocketClient.send
  rcases hws : c.ws with _ | rs
  · simp
  · cases rs <;> simp

/-- C10: every `onopen` resets the reconnect counter to 0, so that after
any successful (re)connection a later run of consecutive failures again
issues the full configured cap of fresh reconnect attempts. -/
theorem reconnect_counter_reset_on_open (c : WebSocketClient) :
    ((c.onopen).1).reconnectAttempts = 0 ∧
    countSchedules (failAllReconnects (c.onopen).1).2 =
      ((c.onopen).1).maxReconnectAttempts := by
  constructor
  · rfl
  · have h := failLoop_schedule_count
      ((c.onopen).1.maxReconnectAttempts - (c.onopen).1.reconnectAttempts + 1)
      (c.onopen).1 (by omega)
    rw [failAllReconnects, h]
    simp [WebSocketClient.onopen]

end CityPulse
